import Mathlib

/-!
Verification of the VibeTube acquisition core (`app/ytdlp_utils.py`,
`app/main.py`, `app/models.py`) against its natural-language specification.

The Python code is shallowly embedded: every function below mirrors one
Python function of the repository, with external effects (the `yt-dlp`
subprocess, the filesystem, SQLite) made explicit as environment records
supplied to the function, and in-place row mutation made explicit as
state passing.  Exceptions are modelled with an explicit `PyResult`
escape value where a Python exception can cross a function boundary.
-/

set_option autoImplicit false

namespace VibeTube

/-! ## JSON objects

`json.loads` of one yt-dlp JSON document is modelled as an association
list from string keys to (stringified) values, with first-match lookup.
A Python dict has unique keys; insertion of a fresh key appends. -/

abbrev Dict := List (String × String)

def Dict.lookup : Dict → String → Option String
  | [], _ => none
  | (k, v) :: rest, key => if k = key then some v else Dict.lookup rest key

/-- Python's `key in d` membership test. -/
def Dict.hasKey (d : Dict) (key : String) : Bool :=
  (Dict.lookup d key).isSome

/-- Python's `d.get(key, fallback)`. -/
def Dict.getD (d : Dict) (key fallback : String) : String :=
  (Dict.lookup d key).getD fallback

/-! ## Python string primitives

The embedding needs `str.splitlines`, `str.strip`, truthiness of a
string, and slicing `s[:n]`.  They are defined structurally over the
character list of the string so that concrete inputs evaluate inside the
kernel. -/

/-- `str.strip()` on a character list: drop leading and trailing
whitespace. -/
def stripChars (cs : List Char) : List Char :=
  ((cs.dropWhile Char.isWhitespace).reverse.dropWhile Char.isWhitespace).reverse

/-- Python `s.strip()`. -/
def pyStrip (s : String) : String :=
  String.mk (stripChars s.data)

/-- Python truthiness of `s.strip()` is false iff every character is
whitespace (in particular for the empty string). -/
def isBlank (s : String) : Bool :=
  s.data.all Char.isWhitespace

/-- Python `s[:n]` (first `n` characters). -/
def pyTake (s : String) (n : Nat) : String :=
  String.mk (s.data.take n)

def splitLinesAux : List Char → List Char → List String
  | [], acc => if acc.isEmpty then [] else [String.mk acc.reverse]
  | c :: cs, acc =>
    if c = '\n' then String.mk acc.reverse :: splitLinesAux cs []
    else splitLinesAux cs (c :: acc)

/-- Python `s.splitlines()` (with `\n` separators; no trailing empty
line). -/
def splitLines (s : String) : List String :=
  splitLinesAux s.data []

theorem Dict.lookup_append (d₁ d₂ : Dict) (key : String) :
    Dict.lookup (d₁ ++ d₂) key =
      match Dict.lookup d₁ key with
      | some v => some v
      | none => Dict.lookup d₂ key := by
  induction d₁ with
  | nil => simp [Dict.lookup]
  | cons kv rest ih =>
    obtain ⟨k, v⟩ := kv
    by_cases h : k = key
    · simp [Dict.lookup, h]
    · simp [Dict.lookup, h, ih]

/-! ## Source Resolver (`get_video_info`, `get_channel_videos`,
`get_playlist_videos`)

One subprocess invocation of the external tool either exits 0 with
captured stdout, exits non-zero (raising `CalledProcessError` under
`check=True`), or cannot be executed at all (an `OSError` such as
`FileNotFoundError` when `yt-dlp` is not on the PATH). -/

inductive RunOutcome where
  | ok (stdout : String)
  | exit (stderr : String)
  | notInvocable
deriving Repr, DecidableEq

def RunOutcome.isExit : RunOutcome → Bool
  | RunOutcome.exit _ => true
  | _ => false

/-- A Python exception escaping a function boundary. -/
inductive PyExn where
  | calledProcessError (stderr : String)
  | jsonDecodeError
  | fileNotFoundError
deriving Repr, DecidableEq

/-- Result of a Python call: a value, or an uncaught exception. -/
inductive PyResult (α : Type) where
  | ok (val : α)
  | raised (e : PyExn)
deriving Repr, DecidableEq

/-- The external world as seen by the resolver functions: the outcome of
the detailed single-video lookup keyed by video id, the outcome of the
flat-listing invocation keyed by URL, and `json.loads` (which returns
`none` exactly when Python would raise `JSONDecodeError`).  The cookie
file obtained from `get_cookie_file` only adds a `--cookies` argument to
the command line, hence it is absorbed into these outcomes. -/
structure ResolverEnv where
  videoRun : String → RunOutcome
  listingRun : String → RunOutcome
  parse : String → Option Dict

/-- `get_video_info` (ytdlp_utils.py:110).  `subprocess.run(..., check=True)`
raises `CalledProcessError` on a non-zero exit, which is caught and turned
into `None`; `json.loads` failure is caught and turned into `None`; an
`OSError` from an un-invocable tool is not caught. -/
def get_video_info (env : ResolverEnv) (video_id : String) :
    PyResult (Option Dict) :=
  match env.videoRun video_id with
  | RunOutcome.notInvocable => PyResult.raised PyExn.fileNotFoundError
  | RunOutcome.exit _ => PyResult.ok none
  | RunOutcome.ok stdout =>
    match env.parse stdout with
    | none => PyResult.ok none
    | some d => PyResult.ok (some d)

/-- The merge in ytdlp_utils.py:166-169: starting from `detailed_info`,
each `(key, value)` of the flat-listing entry `video_data` is added only
when `key not in detailed_info`. -/
def mergeListingInto (video_data detailed_info : Dict) : Dict :=
  video_data.foldl
    (fun acc kv => if Dict.hasKey acc kv.1 then acc else acc ++ [kv])
    detailed_info

/-- Enrichment of one flat-listing entry (ytdlp_utils.py:160-169): when
the entry has an `"id"`, a detailed lookup is attempted, and a successful
lookup replaces the entry by the merge of the two. -/
def enrichEntry (env : ResolverEnv) (video_data : Dict) : PyResult Dict :=
  match Dict.lookup video_data "id" with
  | none => PyResult.ok video_data
  | some vid =>
    match get_video_info env vid with
    | PyResult.raised e => PyResult.raised e
    | PyResult.ok none => PyResult.ok video_data
    | PyResult.ok (some detailed_info) =>
      PyResult.ok (mergeListingInto video_data detailed_info)

/-- The per-line loop of the flat-listing functions
(ytdlp_utils.py:157-170): blank lines are dropped, an unparsable line
raises `JSONDecodeError` (caught only at the function boundary), and each
parsed entry is enriched. -/
def collectFlatEntries (env : ResolverEnv) : List String → PyResult (List Dict)
  | [] => PyResult.ok []
  | line :: rest =>
    if isBlank line then collectFlatEntries env rest
    else
      match env.parse line with
      | none => PyResult.raised PyExn.jsonDecodeError
      | some video_data =>
        match enrichEntry env video_data with
        | PyResult.raised e => PyResult.raised e
        | PyResult.ok vd =>
          match collectFlatEntries env rest with
          | PyResult.raised e => PyResult.raised e
          | PyResult.ok vids => PyResult.ok (vd :: vids)

/-- The `except` clauses of `get_channel_videos`/`get_playlist_videos`
catch `CalledProcessError` and `JSONDecodeError` only. -/
def catchFlatBoundary (r : PyResult (List Dict)) : PyResult (List Dict) :=
  match r with
  | PyResult.ok vids => PyResult.ok vids
  | PyResult.raised PyExn.jsonDecodeError => PyResult.ok []
  | PyResult.raised e => PyResult.raised e

/-- `get_channel_videos` (ytdlp_utils.py:138). -/
def get_channel_videos (env : ResolverEnv) (channel_id : String) :
    PyResult (List Dict) :=
  match env.listingRun
      ("https://www.youtube.com/channel/" ++ channel_id ++ "/videos") with
  | RunOutcome.notInvocable => PyResult.raised PyExn.fileNotFoundError
  | RunOutcome.exit _ => PyResult.ok []
  | RunOutcome.ok stdout =>
    catchFlatBoundary (collectFlatEntries env (splitLines stdout))

/-- `get_playlist_videos` (ytdlp_utils.py:180). -/
def get_playlist_videos (env : ResolverEnv) (playlist_id : String) :
    PyResult (List Dict) :=
  match env.listingRun
      ("https://www.youtube.com/playlist?list=" ++ playlist_id) with
  | RunOutcome.notInvocable => PyResult.raised PyExn.fileNotFoundError
  | RunOutcome.exit _ => PyResult.ok []
  | RunOutcome.ok stdout =>
    catchFlatBoundary (collectFlatEntries env (splitLines stdout))

theorem mergeListingInto_cons (kv : String × String) (rest di : Dict) :
    mergeListingInto (kv :: rest) di =
      mergeListingInto rest (if Dict.hasKey di kv.1 then di else di ++ [kv]) := rfl

theorem hasKey_of_lookup_none {di : Dict} {k : String}
    (h : Dict.lookup di k = none) : Dict.hasKey di k = false := by
  simp [Dict.hasKey, h]

/-- A resolver environment on which the flat-listing entry and the
detailed lookup disagree on `"title"`: the listing says `"A"`, the
detailed lookup says `"B"`. -/
def c3Env : ResolverEnv :=
  { videoRun := fun vid =>
      if vid = "x" then RunOutcome.ok "DETAIL" else RunOutcome.exit "unavailable"
    listingRun := fun _ => RunOutcome.ok "LINE"
    parse := fun s =>
      if s = "LINE" then some [("id", "x"), ("title", "A")]
      else if s = "DETAIL" then some [("id", "x"), ("title", "B"), ("duration", "5")]
      else none }

/-- C3, counterexample: on `c3Env` the flat listing provides
`title = "A"` and the detailed lookup provides `title = "B"`, and the
merged descriptor produced by `get_channel_videos` carries `"B"` — the
detailed-lookup value, not the listing-provided one.  The claim that
listing-provided values take precedence on conflict is therefore false
at this input. -/
theorem merge_listing_precedence_counterexample :
    get_channel_videos c3Env "chan" =
        PyResult.ok [[("id", "x"), ("title", "B"), ("duration", "5")]] ∧
    Dict.lookup [("id", "x"), ("title", "B"), ("duration", "5")] "title" = some "B" ∧
    ("B" : String) ≠ "A" := by
  refine ⟨by decide, by decide, by decide⟩

/-- C3 (amended): in the flat-listing enrichment of `get_channel_videos`
and `get_playlist_videos`, when the listing entry and the detailed lookup
both provide a value for the same field, the *detailed-lookup* value
takes precedence in the merged descriptor; listing-provided values are
only added for fields the detailed lookup did not provide. -/
theorem merge_detailed_precedence (video_data detailed_info : Dict) (key : String) :
    Dict.lookup (mergeListingInto video_data detailed_info) key =
      match Dict.lookup detailed_info key with
      | some v => some v
      | none => Dict.lookup video_data key := by
  induction video_data generalizing detailed_info with
  | nil =>
    cases h : Dict.lookup detailed_info key <;>
      simp [mergeListingInto, Dict.lookup, h]
  | cons kv rest ih =>
    obtain ⟨k, v⟩ := kv
    rw [mergeListingInto_cons]
    by_cases hk : Dict.hasKey detailed_info k = true
    · rw [if_pos hk, ih]
      cases hdk : Dict.lookup detailed_info key with
      | some w => simp
      | none =>
        by_cases hkey : k = key
        · subst hkey
          simp [Dict.hasKey, hdk] at hk
        · simp [Dict.lookup, hkey]
    · rw [if_neg hk, ih, Dict.lookup_append]
      cases hdk : Dict.lookup detailed_info key with
      | some w => simp
      | none =>
        by_cases hkey : k = key
        · subst hkey
          simp [Dict.lookup]
        · simp [Dict.lookup, hkey]

theorem get_video_info_raised_eq {env : ResolverEnv} {vid : String} {e : PyExn}
    (h : get_video_info env vid = PyResult.raised e) : e = PyExn.fileNotFoundError := by
  unfold get_video_info at h
  cases hrun : env.videoRun vid with
  | ok stdout =>
    rw [hrun] at h
    dsimp only at h
    cases hp : env.parse stdout with
    | none =>
      rw [hp] at h
      exact PyResult.noConfusion h
    | some d =>
      rw [hp] at h
      exact PyResult.noConfusion h
  | exit stderr =>
    rw [hrun] at h
    exact PyResult.noConfusion h
  | notInvocable =>
    rw [hrun] at h
    injection h with h'
    exact h'.symm

theorem enrichEntry_raised_eq {env : ResolverEnv} {d : Dict} {e : PyExn}
    (h : enrichEntry env d = PyResult.raised e) : e = PyExn.fileNotFoundError := by
  unfold enrichEntry at h
  cases hid : Dict.lookup d "id" with
  | none =>
    rw [hid] at h
    exact PyResult.noConfusion h
  | some vid =>
    rw [hid] at h
    dsimp only at h
    cases hinfo : get_video_info env vid with
    | ok v =>
      rw [hinfo] at h
      cases v with
      | none => exact PyResult.noConfusion h
      | some di => exact PyResult.noConfusion h
    | raised e' =>
      rw [hinfo] at h
      dsimp only at h
      injection h with h'
      exact h' ▸ get_video_info_raised_eq hinfo

theorem collectFlatEntries_raised_eq {env : ResolverEnv} {lines : List String}
    {e : PyExn} (h : collectFlatEntries env lines = PyResult.raised e) :
    e = PyExn.jsonDecodeError ∨ e = PyExn.fileNotFoundError := by
  induction lines with
  | nil => exact PyResult.noConfusion h
  | cons line rest ih =>
    unfold collectFlatEntries at h
    by_cases hb : isBlank line = true
    · rw [if_pos hb] at h
      exact ih h
    · rw [if_neg hb] at h
      cases hp : env.parse line with
      | none =>
        rw [hp] at h
        injection h with h'
        exact Or.inl h'.symm
      | some video_data =>
        rw [hp] at h
        dsimp only at h
        cases he : enrichEntry env video_data with
        | raised e' =>
          rw [he] at h
          dsimp only at h
          injection h with h'
          exact Or.inr (h' ▸ enrichEntry_raised_eq he)
        | ok vd =>
          rw [he] at h
          dsimp only at h
          cases hr : collectFlatEntries env rest with
          | raised e2 =>
            rw [hr] at h
            dsimp only at h
            injection h with h'
            exact ih (h' ▸ hr)
          | ok vids =>
            rw [hr] at h
            exact PyResult.noConfusion h

theorem catchFlatBoundary_raised_eq {r : PyResult (List Dict)} {e : PyExn}
    (hr : ∀ e', r = PyResult.raised e' →
      e' = PyExn.jsonDecodeError ∨ e' = PyExn.fileNotFoundError)
    (h : catchFlatBoundary r = PyResult.raised e) : e = PyExn.fileNotFoundError := by
  unfold catchFlatBoundary at h
  cases r with
  | ok _ => exact PyResult.noConfusion h
  | raised e' =>
    cases e' with
    | calledProcessError s =>
      rcases hr _ rfl with h' | h' <;> cases h'
    | jsonDecodeError => exact PyResult.noConfusion h
    | fileNotFoundError =>
      injection h with h'
      exact h'.symm

/-- A resolver environment in which the external tool cannot be invoked
at all (e.g. `yt-dlp` missing from the PATH). -/
def c4BadEnv : ResolverEnv :=
  { videoRun := fun _ => RunOutcome.notInvocable
    listingRun := fun _ => RunOutcome.notInvocable
    parse := fun _ => none }

/-- C4, counterexample: when the external tool cannot be invoked,
`subprocess.run` raises an `OSError` (`FileNotFoundError`), which the
`except` clauses (`CalledProcessError`, `JSONDecodeError`) do not catch:
all three resolver functions raise past their boundary instead of
returning `none`/`[]`, refuting the claim for the "tool not invocable"
failure. -/
theorem resolver_not_invocable_raises :
    get_video_info c4BadEnv "v" = PyResult.raised PyExn.fileNotFoundError ∧
    get_channel_videos c4BadEnv "c" = PyResult.raised PyExn.fileNotFoundError ∧
    get_playlist_videos c4BadEnv "p" = PyResult.raised PyExn.fileNotFoundError :=
  ⟨rfl, rfl, rfl⟩

theorem get_video_info_ok (env : ResolverEnv) (vid : String)
    (h : env.videoRun vid ≠ RunOutcome.notInvocable) :
    ∃ r, get_video_info env vid = PyResult.ok r := by
  unfold get_video_info
  cases hrun : env.videoRun vid with
  | ok stdout =>
    dsimp only
    cases hp : env.parse stdout
    · exact ⟨none, rfl⟩
    · exact ⟨_, rfl⟩
  | exit stderr => exact ⟨none, rfl⟩
  | notInvocable => exact absurd hrun h

theorem enrichEntry_ok (env : ResolverEnv) (d : Dict)
    (h : ∀ v, env.videoRun v ≠ RunOutcome.notInvocable) :
    ∃ d', enrichEntry env d = PyResult.ok d' := by
  unfold enrichEntry
  cases hid : Dict.lookup d "id" with
  | none => exact ⟨d, rfl⟩
  | some vid =>
    dsimp only
    obtain ⟨r, hr⟩ := get_video_info_ok env vid (h vid)
    rw [hr]
    cases r
    · exact ⟨d, rfl⟩
    · exact ⟨_, rfl⟩

/-- When the tool is invocable, an unparsable non-blank line anywhere in
the flat-listing output makes the line loop raise `JSONDecodeError`. -/
theorem collectFlatEntries_unparsable (env : ResolverEnv)
    (hinv : ∀ v, env.videoRun v ≠ RunOutcome.notInvocable) :
    ∀ lines, (∃ line ∈ lines, isBlank line = false ∧ env.parse line = none) →
    collectFlatEntries env lines = PyResult.raised PyExn.jsonDecodeError := by
  intro lines
  induction lines with
  | nil =>
    intro hbad
    obtain ⟨l, hl, _⟩ := hbad
    cases hl
  | cons line rest ih =>
    intro hbad
    obtain ⟨l, hl, hlb, hlp⟩ := hbad
    unfold collectFlatEntries
    by_cases hb : isBlank line = true
    · rw [if_pos hb]
      apply ih
      rcases List.mem_cons.mp hl with rfl | hl'
      · rw [hb] at hlb
        exact Bool.noConfusion hlb
      · exact ⟨l, hl', hlb, hlp⟩
    · rw [if_neg hb]
      cases hp : env.parse line with
      | none => rfl
      | some video_data =>
        have hl' : l ∈ rest := by
          rcases List.mem_cons.mp hl with rfl | hl'
          · rw [hp] at hlp
            exact Option.noConfusion hlp
          · exact hl'
        dsimp only
        obtain ⟨vd, hvd⟩ := enrichEntry_ok env video_data hinv
        rw [hvd]
        dsimp only
        rw [ih ⟨l, hl', hlb, hlp⟩]

/-- C4 (amended): `get_video_info`, `get_channel_videos` and
`get_playlist_videos` return `none` (single lookup) or the empty list
(flat listings) when the external tool exits non-zero or its output is
unparsable, and the only exception that can escape their boundary is the
`OSError` of a tool that could not be invoked at all. -/
theorem resolver_failure_yields_empty (env : ResolverEnv) (vid cid pid : String) :
    ((env.videoRun vid).isExit = true → get_video_info env vid = PyResult.ok none) ∧
    (∀ out, env.videoRun vid = RunOutcome.ok out → env.parse out = none →
      get_video_info env vid = PyResult.ok none) ∧
    ((env.listingRun
        ("https://www.youtube.com/channel/" ++ cid ++ "/videos")).isExit = true →
      get_channel_videos env cid = PyResult.ok []) ∧
    ((env.listingRun
        ("https://www.youtube.com/playlist?list=" ++ pid)).isExit = true →
      get_playlist_videos env pid = PyResult.ok []) ∧
    (∀ out, env.listingRun
        ("https://www.youtube.com/channel/" ++ cid ++ "/videos") =
          RunOutcome.ok out →
      (∀ v, env.videoRun v ≠ RunOutcome.notInvocable) →
      (∃ line ∈ splitLines out, isBlank line = false ∧ env.parse line = none) →
      get_channel_videos env cid = PyResult.ok []) ∧
    (∀ out, env.listingRun
        ("https://www.youtube.com/playlist?list=" ++ pid) = RunOutcome.ok out →
      (∀ v, env.videoRun v ≠ RunOutcome.notInvocable) →
      (∃ line ∈ splitLines out, isBlank line = false ∧ env.parse line = none) →
      get_playlist_videos env pid = PyResult.ok []) ∧
    (∀ e, get_video_info env vid = PyResult.raised e → e = PyExn.fileNotFoundError) ∧
    (∀ e, get_channel_videos env cid = PyResult.raised e →
      e = PyExn.fileNotFoundError) ∧
    (∀ e, get_playlist_videos env pid = PyResult.raised e →
      e = PyExn.fileNotFoundError) := by
  refine ⟨?_, ?_, ?_, ?_, ?_, ?_, ?_, ?_, ?_⟩
  · intro h
    unfold get_video_info
    cases hrun : env.videoRun vid <;> simp [hrun, RunOutcome.isExit] at h ⊢
  · intro out hrun hp
    unfold get_video_info
    rw [hrun]
    dsimp only
    rw [hp]
  · intro h
    unfold get_channel_videos
    cases hrun :
        env.listingRun ("https://www.youtube.com/channel/" ++ cid ++ "/videos") <;>
      simp [hrun, RunOutcome.isExit] at h ⊢
  · intro h
    unfold get_playlist_videos
    cases hrun :
        env.listingRun ("https://www.youtube.com/playlist?list=" ++ pid) <;>
      simp [hrun, RunOutcome.isExit] at h ⊢
  · intro out hrun hinv hbad
    unfold get_channel_videos
    rw [hrun]
    dsimp only
    rw [collectFlatEntries_unparsable env hinv (splitLines out) hbad]
    rfl
  · intro out hrun hinv hbad
    unfold get_playlist_videos
    rw [hrun]
    dsimp only
    rw [collectFlatEntries_unparsable env hinv (splitLines out) hbad]
    rfl
  · intro e h
    exact get_video_info_raised_eq h
  · intro e h
    unfold get_channel_videos at h
    cases hrun :
        env.listingRun ("https://www.youtube.com/channel/" ++ cid ++ "/videos") <;>
      rw [hrun] at h
    · exact catchFlatBoundary_raised_eq
        (fun e' he' => collectFlatEntries_raised_eq he') h
    · exact PyResult.noConfusion h
    · injection h with h'
      exact h'.symm
  · intro e h
    unfold get_playlist_videos at h
    cases hrun :
        env.listingRun ("https://www.youtube.com/playlist?list=" ++ pid) <;>
      rw [hrun] at h
    · exact catchFlatBoundary_raised_eq
        (fun e' he' => collectFlatEntries_raised_eq he') h
    · exact PyResult.noConfusion h
    · injection h with h'
      exact h'.symm

/-- A resolver environment in which every tool invocation exits non-zero. -/
def c4ExitEnv : ResolverEnv :=
  { videoRun := fun _ => RunOutcome.exit "ERROR: unavailable"
    listingRun := fun _ => RunOutcome.exit "ERROR: unavailable"
    parse := fun _ => none }

/-- A resolver environment whose flat-listing invocation exits zero but
prints output that is not JSON. -/
def c4BadListingEnv : ResolverEnv :=
  { videoRun := fun _ => RunOutcome.exit "ERROR: unavailable"
    listingRun := fun _ => RunOutcome.ok "not json"
    parse := fun _ => none }

theorem resolver_failure_yields_empty_witness :
    get_video_info c4ExitEnv "v" = PyResult.ok none ∧
    get_channel_videos c4ExitEnv "c" = PyResult.ok [] ∧
    get_playlist_videos c4ExitEnv "p" = PyResult.ok [] ∧
    get_channel_videos c4BadListingEnv "c" = PyResult.ok [] ∧
    get_playlist_videos c4BadListingEnv "p" = PyResult.ok [] := by
  have h := resolver_failure_yields_empty c4ExitEnv "v" "c" "p"
  have h2 := resolver_failure_yields_empty c4BadListingEnv "v" "c" "p"
  refine ⟨h.1 rfl, h.2.2.1 rfl, h.2.2.2.1 rfl, ?_, ?_⟩
  · exact h2.2.2.2.2.1 "not json" rfl (fun v hv => RunOutcome.noConfusion hv)
      ⟨"not json", by decide, by decide, rfl⟩
  · exact h2.2.2.2.2.2.1 "not json" rfl (fun v hv => RunOutcome.noConfusion hv)
      ⟨"not json", by decide, by decide, rfl⟩

/-! ## Catalog data model (`app/models.py`)

One row of the `videos` table and one row of the `sources` table.
`DateTime` values are abstracted as `Nat` timestamps. -/

structure Video where
  video_id : String
  title : Option String
  channel_name : Option String
  upload_date : Option String
  source_id : Option Nat
  downloaded : Bool
  download_path : Option String
  download_date : Option Nat
  thumbnail_url : Option String
  duration : Option Nat
  file_deleted : Bool
  skip : Bool
  failed_download : Bool
  error_message : Option String
deriving Repr, DecidableEq

structure Source where
  id : Nat
  source_type : String
  source_id : String
  name : Option String
  last_checked : Option Nat
  subfolder_id : Option Nat
  auto_download : Bool
deriving Repr, DecidableEq

/-! ## Credential (cookie) Cache (`get_cookie_file`, ytdlp_utils.py:46)

Process state: the module globals `GLOBAL_COOKIE_FILE` and
`COOKIE_TIMESTAMP`, plus the contents of the single on-disk cache file
`downloads/.temp/youtube_cookies.txt` (if it exists).  The whole body
runs under `COOKIE_LOCK`, so one call is one atomic state transition.

The database side is the `youtube_cookies` settings row: its current
value, and its SQLite `rowid`.  The row is created once by
`/update_setting` and all later writes (`/update_setting`,
`/clear_youtube_cookies`, main.py:447 and main.py:746) are in-place
`UPDATE`s, which preserve the `rowid`. -/

def COOKIE_FILE_PATH : String := "downloads/.temp/youtube_cookies.txt"

structure CookieState where
  global_cookie_file : Option String
  cookie_timestamp : Nat
  fileOnDisk : Option String
deriving Repr, DecidableEq

/-- The `youtube_cookies` settings row as seen by one call:
`value = none` models an absent row. -/
structure CookieRow where
  value : Option String
  rowid : Nat
deriving Repr, DecidableEq

/-- ytdlp_utils.py:57-65: empty/blank setting removes the cached file
(only when the module remembers one and it exists) and returns `None`. -/
def removeCachedCookieFile (st : CookieState) : CookieState × Option String :=
  if st.global_cookie_file.isSome && st.fileOnDisk.isSome then
    ({ st with fileOnDisk := none, global_cookie_file := none }, none)
  else (st, none)

/-- `get_cookie_file` (ytdlp_utils.py:46-108). -/
def get_cookie_file (row : CookieRow) (st : CookieState) :
    CookieState × Option String :=
  match row.value with
  | none => removeCachedCookieFile st
  | some youtube_cookies =>
    if isBlank youtube_cookies then removeCachedCookieFile st
    else
      let pair :=
        if row.rowid > st.cookie_timestamp then (true, row.rowid)
        else (false, st.cookie_timestamp)
      let setting_updated := pair.1
      let st := { st with cookie_timestamp := pair.2 }
      if st.global_cookie_file.isNone || st.fileOnDisk.isNone || setting_updated then
        ({ st with
            fileOnDisk := some youtube_cookies
            global_cookie_file := some COOKIE_FILE_PATH },
          some COOKIE_FILE_PATH)
      else
        (st, st.global_cookie_file)

/-- The fresh process state: no cached file, `COOKIE_TIMESTAMP = 0`. -/
def cookieState0 : CookieState :=
  { global_cookie_file := none, cookie_timestamp := 0, fileOnDisk := none }

/-- C2, failing input: the `youtube_cookies` setting holds `"A"` (row
with rowid 1), `get_cookie_file` is called, then the setting is
overwritten in place with `"B"` (same row, same rowid — an SQL `UPDATE`
does not change the rowid), and `get_cookie_file` is called again.  The
change-detection token is the rowid, which did not advance, so the
second call returns the cached file still containing `"A"`: stale
content is served after a change, contradicting both the claim and the
code's own comment (ytdlp_utils.py:73-76). -/
theorem cookie_cache_serves_stale_after_update :
    (get_cookie_file ⟨some "A", 1⟩ cookieState0).2 = some COOKIE_FILE_PATH ∧
    (get_cookie_file ⟨some "A", 1⟩ cookieState0).1.fileOnDisk = some "A" ∧
    (get_cookie_file ⟨some "B", 1⟩
        (get_cookie_file ⟨some "A", 1⟩ cookieState0).1).2 = some COOKIE_FILE_PATH ∧
    (get_cookie_file ⟨some "B", 1⟩
        (get_cookie_file ⟨some "A", 1⟩ cookieState0).1).1.fileOnDisk = some "A" ∧
    some "A" ≠ some "B" := by
  refine ⟨by decide, by decide, by decide, by decide, by decide⟩

/-! ## Download Worker (`download_video`, ytdlp_utils.py:222)

The external world of one `download_video` call: the settings and
subfolder rows it reads, the outcomes of the (up to two) `yt-dlp`
download invocations, what the filesystem reports about the expected
output file afterwards, the thumbnail situation, and the wall clock.
The detailed-metadata fetch (`get_video_info`) is non-fatal and feeds
only the NFO/Plex side-car files (which never touch the database) and
the thumbnail fallback, so it is absorbed into the thumbnail fields.
An unexpected exception inside the `try` block (e.g. an `OSError` out of
`get_cookie_file`) is modelled at the start of the block, before any
download attempt. -/

/-- The nine-fold character replacement of ytdlp_utils.py:255. -/
def sanitizeChar (c : Char) : Char :=
  if c = '/' ∨ c = '\\' ∨ c = ':' ∨ c = '?' ∨ c = '"' ∨ c = '*' ∨ c = '<' ∨
      c = '>' ∨ c = '|' then '_' else c

def sanitizeName (s : String) : String :=
  String.mk (s.data.map sanitizeChar)

/-- One `subprocess.run` of a download command (no `check=True`: the
result object is always returned). -/
structure ToolRun where
  returncode : Int
  stderr : String
deriving Repr, DecidableEq

structure DlEnv where
  downloadPathSetting : String
  subfolderPath : Option String
  attempt1 : ToolRun
  attempt2 : ToolRun
  outputFileExists : Bool
  outputFileSize : Nat
  foundThumbnailRel : Option String
  fetchedThumbnailRel : Option String
  raisesUnexpected : Bool
  exceptionText : String
  now : Nat
deriving Repr, DecidableEq

structure DlResult where
  success : Bool
  message : String
  video : Option Video
  downloadInvocations : Nat
deriving Repr, DecidableEq

/-- `error_message[:500] if error_message else "Unknown error"`
(ytdlp_utils.py:340 and 423). -/
def recordedError (error_message : String) : String :=
  if error_message = "" then "Unknown error" else pyTake error_message 500

/-- `download_video` (ytdlp_utils.py:222-427).  The argument is the
result of the `video_id` row lookup; the returned `video` is the
committed final state of that row. -/
def download_video (env : DlEnv) (video? : Option Video) : DlResult :=
  match video? with
  | none =>
    { success := false, message := "Video not found in database"
      video := none, downloadInvocations := 0 }
  | some video0 =>
    if video0.downloaded then
      { success := true, message := "Video already downloaded"
        video := some video0, downloadInvocations := 0 }
    else
      let video :=
        if video0.failed_download then
          { video0 with failed_download := false, error_message := none }
        else video0
      let download_path := (env.subfolderPath).getD env.downloadPathSetting
      let safe_title := sanitizeName (video.title.getD "")
      let video_folder_name := if safe_title = "" then video.video_id else safe_title
      let output_file :=
        download_path ++ "/" ++ video_folder_name ++ "/" ++ video_folder_name ++ ".mp4"
      if env.raisesUnexpected then
        { success := false, message := "Exception: " ++ env.exceptionText
          video := some { video with
            failed_download := true
            error_message := some (recordedError env.exceptionText) }
          downloadInvocations := 0 }
      else
        let result := if env.attempt1.returncode ≠ 0 then env.attempt2 else env.attempt1
        let invocations := if env.attempt1.returncode ≠ 0 then 2 else 1
        if result.returncode ≠ 0 then
          let error_message := pyStrip result.stderr
          { success := false, message := "yt-dlp error: " ++ error_message
            video := some { video with
              failed_download := true
              error_message := some (recordedError error_message) }
            downloadInvocations := invocations }
        else if !env.outputFileExists || env.outputFileSize < 10000 then
          { success := false, message := "Download failed or file too small"
            video := some { video with
              failed_download := true
              error_message := some "Download failed or file too small" }
            downloadInvocations := invocations }
        else
          let video :=
            match env.foundThumbnailRel with
            | some rel => { video with thumbnail_url := some ("/downloads/" ++ rel) }
            | none =>
              match env.fetchedThumbnailRel with
              | some rel => { video with thumbnail_url := some ("/downloads/" ++ rel) }
              | none => video
          { success := true, message := "Downloaded successfully: " ++ output_file
            video := some { video with
              downloaded := true
              download_date := some env.now
              download_path := some output_file
              failed_download := false
              error_message := none }
            downloadInvocations := invocations }

/-- C5: calling `download_video` on an item whose `downloaded` flag is
already true returns success immediately: the row is returned unchanged
(in particular its stored `download_path`), and no download invocation of
the external tool is made — the result does not depend on the
environment at all. -/
theorem download_video_idempotent_on_downloaded (env : DlEnv) (video : Video)
    (h : video.downloaded = true) :
    download_video env (some video) =
      { success := true, message := "Video already downloaded"
        video := some video, downloadInvocations := 0 } := by
  unfold download_video
  dsimp only
  rw [h]
  rfl

/-- A fully-downloaded sample row for the witnesses. -/
def sampleDownloadedVideo : Video :=
  { video_id := "abc123", title := some "Some Title", channel_name := some "Chan"
    upload_date := some "20240101", source_id := some 1, downloaded := true
    download_path := some "/downloads/Some Title/Some Title.mp4"
    download_date := some 100, thumbnail_url := some "/downloads/t.jpg"
    duration := some 60, file_deleted := false, skip := false
    failed_download := false, error_message := none }

/-- A benign environment in which both attempts would succeed. -/
def sampleEnv : DlEnv :=
  { downloadPathSetting := "/downloads", subfolderPath := none
    attempt1 := { returncode := 0, stderr := "" }
    attempt2 := { returncode := 0, stderr := "" }
    outputFileExists := true, outputFileSize := 20000
    foundThumbnailRel := some "Some Title/Some Title.jpg"
    fetchedThumbnailRel := none
    raisesUnexpected := false, exceptionText := "", now := 200 }

theorem download_video_idempotent_on_downloaded_witness :
    sampleDownloadedVideo.downloaded = true ∧
    download_video sampleEnv (some sampleDownloadedVideo) =
      { success := true, message := "Video already downloaded"
        video := some sampleDownloadedVideo, downloadInvocations := 0 } :=
  ⟨rfl, download_video_idempotent_on_downloaded sampleEnv sampleDownloadedVideo rfl⟩

/-- An item that was downloaded once and whose files were then deleted
(`delete_video_files` / the library scanner set `downloaded = false`,
`file_deleted = true`, `skip = true`). -/
def fileDeletedVideo : Video :=
  { video_id := "vid9", title := some "Gone", channel_name := some "Chan"
    upload_date := none, source_id := some 1, downloaded := false
    download_path := none, download_date := none, thumbnail_url := none
    duration := none, file_deleted := true, skip := true
    failed_download := false, error_message := none }

/-- C1, violation at the failing input: `download_video` is invoked (via
`POST /download_video/{id}`, main.py:401) on an item whose `file_deleted`
flag is true, and the download succeeds.  The success branch
(ytdlp_utils.py:406-412) sets `downloaded = true` and clears
`failed_download`/`error_message`, but never clears `file_deleted`, so
the committed row has `downloaded = true ∧ file_deleted = true` — the
§3 invariant "`acquired` and `file_missing` are never both true" is
broken by the code. -/
theorem download_marks_acquired_leaves_file_deleted :
    (download_video sampleEnv (some fileDeletedVideo)).success = true ∧
    ((download_video sampleEnv (some fileDeletedVideo)).video.map
      (fun v => (v.downloaded, v.file_deleted))) = some (true, true) := by
  refine ⟨by decide, by decide⟩

/-- C8: on an existing, not-yet-downloaded item and with no unexpected
exception, (1) if both download invocations exit non-zero, the committed
row has `failed_download = true` and `error_message` equal to the second
attempt's stripped stderr truncated to at most 500 characters, the call
returns failure with the tool's error text, and exactly two invocations
were made; (2) if the surviving invocation exits zero but the expected
output file is missing or smaller than the 10000-byte threshold, the
call records failure with the descriptive message and makes no further
invocation beyond the ones already made. -/
theorem download_failure_recording (env : DlEnv) (video : Video)
    (hdl : video.downloaded = false) (hexn : env.raisesUnexpected = false) :
    ((env.attempt1.returncode ≠ 0 ∧ env.attempt2.returncode ≠ 0 ∧
        pyStrip env.attempt2.stderr ≠ "") →
      download_video env (some video) =
        { success := false
          message := "yt-dlp error: " ++ pyStrip env.attempt2.stderr
          video := some { video with
            failed_download := true
            error_message := some (pyTake (pyStrip env.attempt2.stderr) 500) }
          downloadInvocations := 2 }) ∧
    (((if env.attempt1.returncode ≠ 0 then env.attempt2 else env.attempt1).returncode = 0 ∧
        (env.outputFileExists = false ∨ env.outputFileSize < 10000)) →
      download_video env (some video) =
        { success := false
          message := "Download failed or file too small"
          video := some { video with
            failed_download := true
            error_message := some "Download failed or file too small" }
          downloadInvocations := if env.attempt1.returncode ≠ 0 then 2 else 1 }) := by
  constructor
  · rintro ⟨h1, h2, h3⟩
    unfold download_video
    dsimp only
    rw [hdl]
    simp only [Bool.false_eq_true, if_false, hexn, h1, ite_true, if_pos h1]
    rw [if_pos h2]
    simp only [recordedError, h3, if_neg h3]
    by_cases hf : video.failed_download = true
    · simp [hf, hdl]
    · simp [hf, hdl]
  · rintro ⟨h1, h2⟩
    unfold download_video
    dsimp only
    rw [hdl]
    simp only [Bool.false_eq_true, if_false, hexn]
    rw [if_neg (by simpa using h1)]
    have hsmall : (!env.outputFileExists || decide (env.outputFileSize < 10000)) = true := by
      rcases h2 with h2 | h2 <;> simp [h2]
    rw [if_pos hsmall]
    by_cases hf : video.failed_download = true
    · simp [hf, hdl]
    · simp [hf, hdl]

/-- A not-yet-downloaded sample row for the witnesses. -/
def sampleQueuedVideo : Video :=
  { video_id := "q1", title := some "Queued", channel_name := some "Chan"
    upload_date := some "20240101", source_id := some 1, downloaded := false
    download_path := none, download_date := none, thumbnail_url := none
    duration := some 10, file_deleted := false, skip := false
    failed_download := false, error_message := none }

/-- Both attempts exit non-zero. -/
def bothFailEnv : DlEnv :=
  { downloadPathSetting := "/downloads", subfolderPath := none
    attempt1 := { returncode := 1, stderr := " ERROR: network\n" }
    attempt2 := { returncode := 1, stderr := " ERROR: network\n" }
    outputFileExists := false, outputFileSize := 0
    foundThumbnailRel := none, fetchedThumbnailRel := none
    raisesUnexpected := false, exceptionText := "", now := 0 }

/-- The tool exits zero but the output file is too small. -/
def smallFileEnv : DlEnv :=
  { downloadPathSetting := "/downloads", subfolderPath := none
    attempt1 := { returncode := 0, stderr := "" }
    attempt2 := { returncode := 0, stderr := "" }
    outputFileExists := true, outputFileSize := 100
    foundThumbnailRel := none, fetchedThumbnailRel := none
    raisesUnexpected := false, exceptionText := "", now := 0 }

theorem download_failure_recording_witness :
    download_video bothFailEnv (some sampleQueuedVideo) =
      { success := false
        message := "yt-dlp error: " ++ pyStrip bothFailEnv.attempt2.stderr
        video := some { sampleQueuedVideo with
          failed_download := true
          error_message := some (pyTake (pyStrip bothFailEnv.attempt2.stderr) 500) }
        downloadInvocations := 2 } ∧
    download_video smallFileEnv (some sampleQueuedVideo) =
      { success := false
        message := "Download failed or file too small"
        video := some { sampleQueuedVideo with
          failed_download := true
          error_message := some "Download failed or file too small" }
        downloadInvocations :=
          if smallFileEnv.attempt1.returncode ≠ 0 then 2 else 1 } := by
  have h1 := download_failure_recording bothFailEnv sampleQueuedVideo rfl rfl
  have h2 := download_failure_recording smallFileEnv sampleQueuedVideo rfl rfl
  exact ⟨h1.1 ⟨by decide, by decide, by decide⟩, h2.2 ⟨by decide, by decide⟩⟩

/-- C10: whenever `download_video` returns failure on an existing item
(tool failure, missing/too-small output file, or the unexpected-exception
handler), the committed row differs from the looked-up row at most in
`failed_download` and `error_message`: `downloaded`, `skip`,
`file_deleted`, `download_path`, `download_date` — and every other
field — are left unchanged. -/
theorem download_failure_frame (env : DlEnv) (video : Video)
    (h : (download_video env (some video)).success = false) :
    ∃ v, (download_video env (some video)).video = some v ∧
      v.video_id = video.video_id ∧ v.title = video.title ∧
      v.channel_name = video.channel_name ∧ v.upload_date = video.upload_date ∧
      v.source_id = video.source_id ∧ v.downloaded = video.downloaded ∧
      v.download_path = video.download_path ∧
      v.download_date = video.download_date ∧
      v.thumbnail_url = video.thumbnail_url ∧ v.duration = video.duration ∧
      v.file_deleted = video.file_deleted ∧ v.skip = video.skip := by
  unfold download_video at h ⊢
  dsimp only at h ⊢
  by_cases hd : video.downloaded = true
  · rw [if_pos hd] at h
    simp at h
  · rw [if_neg hd] at h ⊢
    by_cases hexn : env.raisesUnexpected = true
    · rw [if_pos hexn] at h ⊢
      by_cases hf : video.failed_download = true
      · exact ⟨_, rfl, by simp [hf]⟩
      · exact ⟨_, rfl, by simp [hf]⟩
    · rw [if_neg hexn] at h ⊢
      by_cases hrc :
          (if env.attempt1.returncode ≠ 0 then env.attempt2 else env.attempt1).returncode ≠ 0
      · rw [if_pos hrc] at h ⊢
        by_cases hf : video.failed_download = true
        · exact ⟨_, rfl, by simp [hf]⟩
        · exact ⟨_, rfl, by simp [hf]⟩
      · rw [if_neg hrc] at h ⊢
        by_cases hsmall :
            (!env.outputFileExists || decide (env.outputFileSize < 10000)) = true
        · rw [if_pos hsmall] at h ⊢
          by_cases hf : video.failed_download = true
          · exact ⟨_, rfl, by simp [hf]⟩
          · exact ⟨_, rfl, by simp [hf]⟩
        · rw [if_neg hsmall] at h
          simp at h

theorem download_failure_frame_witness :
    (download_video bothFailEnv (some fileDeletedVideo)).success = false ∧
    ∃ v, (download_video bothFailEnv (some fileDeletedVideo)).video = some v ∧
      v.video_id = fileDeletedVideo.video_id ∧ v.title = fileDeletedVideo.title ∧
      v.channel_name = fileDeletedVideo.channel_name ∧
      v.upload_date = fileDeletedVideo.upload_date ∧
      v.source_id = fileDeletedVideo.source_id ∧
      v.downloaded = fileDeletedVideo.downloaded ∧
      v.download_path = fileDeletedVideo.download_path ∧
      v.download_date = fileDeletedVideo.download_date ∧
      v.thumbnail_url = fileDeletedVideo.thumbnail_url ∧
      v.duration = fileDeletedVideo.duration ∧
      v.file_deleted = fileDeletedVideo.file_deleted ∧
      v.skip = fileDeletedVideo.skip :=
  ⟨by decide, download_failure_frame bothFailEnv fileDeletedVideo (by decide)⟩

/-! ## Queue Processor selection (`process_download_queue`,
ytdlp_utils.py:659-691)

One iteration's choice of the next item to download, as a function of
the current `videos` and `sources` tables (in storage order).  The base
query filters `downloaded=False, file_deleted=False, skip=False,
failed_download=False`; if any source has `auto_download=True` the first
matching video of such a source is taken, otherwise the fallback joins
`Source` and takes the first eligible video of a `source_type='video'`
source. -/

def eligibleFlags (v : Video) : Bool :=
  !v.downloaded && !v.file_deleted && !v.skip && !v.failed_download

/-- The SQL join `Video.source_id = Source.id` (inner join: videos with
no matching source drop out). -/
def findSourceById (sources : List Source) (sid? : Option Nat) : Option Source :=
  match sid? with
  | none => none
  | some sid => sources.find? (fun s => s.id == sid)

def process_queue_select (videos : List Video) (sources : List Source) :
    Option Video :=
  let auto_download_source_ids :=
    (sources.filter (fun s => s.auto_download)).map (fun s => s.id)
  if !(sources.filter (fun s => s.auto_download)).isEmpty then
    (videos.filter (fun v =>
      eligibleFlags v &&
      (match v.source_id with
       | some sid => auto_download_source_ids.contains sid
       | none => false))).head?
  else
    (videos.filter (fun v =>
      (match findSourceById sources v.source_id with
       | some s => s.source_type == "video"
       | none => false) &&
      eligibleFlags v)).head?

theorem eligibleFlags_spec {v : Video} (h : eligibleFlags v = true) :
    v.downloaded = false ∧ v.file_deleted = false ∧ v.skip = false ∧
    v.failed_download = false := by
  have h' := h
  simp [eligibleFlags] at h'
  exact ⟨h'.1.1.1, h'.1.1.2, h'.1.2, h'.2⟩

theorem head?_filter_pred {α : Type} {p : α → Bool} {l : List α} {a : α}
    (h : (l.filter p).head? = some a) : p a = true := by
  cases hl : l.filter p with
  | nil => rw [hl] at h; cases h
  | cons x xs =>
    rw [hl] at h
    injection h with h'
    subst h'
    exact List.of_mem_filter (hl ▸ List.mem_cons_self x xs)

/-- C6: whatever item the queue processor's selection returns — in the
auto-download-source branch or in the standalone-video fallback branch —
satisfies `downloaded = false`, `file_deleted = false`, `skip = false`
and `failed_download = false`. -/
theorem queue_selection_only_eligible (videos : List Video)
    (sources : List Source) (v : Video)
    (h : process_queue_select videos sources = some v) :
    v.downloaded = false ∧ v.file_deleted = false ∧ v.skip = false ∧
    v.failed_download = false := by
  unfold process_queue_select at h
  by_cases hb : (!(sources.filter (fun s => s.auto_download)).isEmpty) = true
  · rw [if_pos hb] at h
    have hp := head?_filter_pred h
    exact eligibleFlags_spec (Bool.and_eq_true_iff.mp hp).1
  · rw [if_neg hb] at h
    have hp := head?_filter_pred h
    exact eligibleFlags_spec (Bool.and_eq_true_iff.mp hp).2

def c6Sources : List Source :=
  [{ id := 1, source_type := "channel", source_id := "c1", name := some "C"
     last_checked := none, subfolder_id := none, auto_download := true }]

theorem queue_selection_only_eligible_witness :
    process_queue_select [sampleQueuedVideo] c6Sources = some sampleQueuedVideo ∧
    sampleQueuedVideo.downloaded = false ∧
    sampleQueuedVideo.file_deleted = false ∧ sampleQueuedVideo.skip = false ∧
    sampleQueuedVideo.failed_download = false :=
  ⟨by decide,
   queue_selection_only_eligible [sampleQueuedVideo] c6Sources sampleQueuedVideo
     (by decide)⟩

/-! ## Source Poller pass (`refresh_sources`, ytdlp_utils.py:854-910)

One pass over all sources.  The resolver invocations
(`get_channel_videos`/`get_playlist_videos`) are abstracted as
`resolve source_type source_id`, the list of descriptors they returned.
The duplicate check `session.query(Video).filter_by(video_id=...)` sees
both pre-existing rows and rows added earlier in the same pass
(SQLAlchemy autoflushes pending inserts before a query), so it runs
against the evolving video list.  `session.commit()` is called exactly
once, after the loop. -/

structure RefreshEnv where
  resolve : String → String → List Dict
  now : Nat

/-- The `Video(...)` constructor call of ytdlp_utils.py:888-898 plus the
upload-date normalisation at 881-886.  Fields not passed keep their
`models.py` column defaults. -/
def mkVideo (source : Source) (video_data : Dict) : Video :=
  let upload_date0 := Dict.getD video_data "upload_date" ""
  let upload_date :=
    if !(upload_date0 == "") && upload_date0.data.contains '-' then
      String.mk ((upload_date0.data.filter (fun c => !(c == '-'))).take 8)
    else upload_date0
  { video_id := Dict.getD video_data "id" ""
    title := some (Dict.getD video_data "title" "Unknown")
    channel_name := some (Dict.getD video_data "channel" "Unknown")
    upload_date := some upload_date
    source_id := some source.id
    downloaded := false
    download_path := none
    download_date := none
    thumbnail_url := some (Dict.getD video_data "thumbnail" "")
    duration := none
    file_deleted := false
    skip := !source.auto_download
    failed_download := false
    error_message := none }

/-- The inner `for video_data in videos_info` loop (ytdlp_utils.py:874-901):
dedup by external id, insert, count. -/
def insertLoop (source : Source) : List Dict → List Video → List Video × Nat
  | [], vids => (vids, 0)
  | video_data :: rest, vids =>
    let vid := Dict.getD video_data "id" ""
    if vids.any (fun v => v.video_id == vid) then insertLoop source rest vids
    else
      let r := insertLoop source rest (vids ++ [mkVideo source video_data])
      (r.1, r.2 + 1)

/-- The body of the `for source in sources` loop for one source
(ytdlp_utils.py:860-904): `source_type == "video"` is skipped entirely
(`continue`); otherwise resolve, insert the new descriptors, and update
`last_checked` — also when the resolver returned nothing. -/
def refreshStep (env : RefreshEnv) (source : Source) (vids : List Video) :
    Source × List Video × Nat :=
  if source.source_type == "video" then (source, vids, 0)
  else
    let videos_info :=
      if source.source_type == "channel" then env.resolve "channel" source.source_id
      else if source.source_type == "playlist" then
        env.resolve "playlist" source.source_id
      else []
    let r := insertLoop source videos_info vids
    ({ source with last_checked := some env.now }, r.1, r.2)

def refreshLoop (env : RefreshEnv) :
    List Source → List Video → List Source × List Video × Nat
  | [], vids => ([], vids, 0)
  | s :: rest, vids =>
    let st := refreshStep env s vids
    let r := refreshLoop env rest st.2.1
    (st.1 :: r.1, r.2.1, st.2.2 + r.2.2)

structure DbState where
  sources : List Source
  videos : List Video
deriving Repr, DecidableEq

structure RefreshResult where
  state : DbState
  sourceCount : Nat
  newVideosCount : Nat
  commits : Nat
deriving Repr, DecidableEq

/-- `refresh_sources` (ytdlp_utils.py:854-910). -/
def refresh_sources (env : RefreshEnv) (st : DbState) : RefreshResult :=
  let r := refreshLoop env st.sources st.videos
  { state := { sources := r.1, videos := r.2.1 }
    sourceCount := st.sources.length
    newVideosCount := r.2.2
    commits := 1 }

theorem any_true_of_pre {α : Type} (p : α → Bool) {l₁ l₂ : List α}
    (h : l₁ <+: l₂) (ha : l₁.any p = true) : l₂.any p = true := by
  obtain ⟨t, rfl⟩ := h
  simp [List.any_append, ha]

theorem insertLoop_pre (source : Source) (descs : List Dict) (vids : List Video) :
    vids <+: (insertLoop source descs vids).1 := by
  induction descs generalizing vids with
  | nil =>
    simp only [insertLoop]
    exact List.prefix_refl _
  | cons vd rest ih =>
    simp only [insertLoop]
    by_cases hdup :
        (vids.any (fun v => v.video_id == Dict.getD vd "id" "")) = true
    · rw [if_pos hdup]
      exact ih vids
    · rw [if_neg hdup]
      dsimp only
      exact (List.prefix_append vids [mkVideo source vd]).trans (ih _)

theorem insertLoop_any_mono (source : Source) (descs : List Dict)
    (vids : List Video) (p : Video → Bool) (ha : vids.any p = true) :
    ((insertLoop source descs vids).1.any p) = true :=
  any_true_of_pre p (insertLoop_pre source descs vids) ha

theorem insertLoop_mem (source : Source) (descs : List Dict) (vids : List Video)
    (v : Video) (hv : v ∈ (insertLoop source descs vids).1) :
    v ∈ vids ∨ ∃ vd ∈ descs, v = mkVideo source vd ∧
      vids.any (fun w => w.video_id == v.video_id) = false := by
  induction descs generalizing vids with
  | nil =>
    simp only [insertLoop] at hv
    exact Or.inl hv
  | cons vd rest ih =>
    simp only [insertLoop] at hv
    by_cases hdup :
        (vids.any (fun w => w.video_id == Dict.getD vd "id" "")) = true
    · rw [if_pos hdup] at hv
      rcases ih vids hv with h | ⟨vd', hvd', hveq, hany⟩
      · exact Or.inl h
      · exact Or.inr ⟨vd', List.mem_cons_of_mem _ hvd', hveq, hany⟩
    · rw [if_neg hdup] at hv
      dsimp only at hv
      rcases ih (vids ++ [mkVideo source vd]) hv with h | ⟨vd', hvd', hveq, hany⟩
      · rcases List.mem_append.mp h with h | h
        · exact Or.inl h
        · have hveq : v = mkVideo source vd := List.mem_singleton.mp h
          refine Or.inr ⟨vd, List.mem_cons_self vd rest, hveq, ?_⟩
          have hid : (mkVideo source vd).video_id = Dict.getD vd "id" "" := rfl
          rw [hveq, hid]
          simpa using hdup
      · refine Or.inr ⟨vd', List.mem_cons_of_mem _ hvd', hveq, ?_⟩
        have h2 := hany
        simp only [List.any_append, Bool.or_eq_false_iff] at h2
        exact h2.1

theorem insertLoop_countP (source : Source) (descs : List Dict)
    (vids : List Video) (x : String) :
    ((insertLoop source descs vids).1.countP (fun v => v.video_id == x)) ≤
      max 1 (vids.countP (fun v => v.video_id == x)) := by
  induction descs generalizing vids with
  | nil =>
    simp only [insertLoop]
    exact le_max_right 1 _
  | cons vd rest ih =>
    simp only [insertLoop]
    by_cases hdup :
        (vids.any (fun v => v.video_id == Dict.getD vd "id" "")) = true
    · rw [if_pos hdup]
      exact ih vids
    · rw [if_neg hdup]
      dsimp only
      refine le_trans (ih (vids ++ [mkVideo source vd])) ?_
      by_cases hx : ((mkVideo source vd).video_id == x) = true
      · have hxid : Dict.getD vd "id" "" = x := by simpa [mkVideo] using hx
        have h0 : vids.countP (fun v => v.video_id == x) = 0 := by
          rw [List.countP_eq_zero]
          intro a ha hax
          apply hdup
          rw [List.any_eq_true]
          refine ⟨a, ha, ?_⟩
          have : a.video_id = x := by simpa using hax
          simp [this, hxid]
        have hcnt : (vids ++ [mkVideo source vd]).countP
            (fun v => v.video_id == x) = 1 := by
          rw [List.countP_append, h0]
          simp [List.countP_cons, hx]
        rw [hcnt, h0]
        simp
      · have hcnt : (vids ++ [mkVideo source vd]).countP
            (fun v => v.video_id == x) =
            vids.countP (fun v => v.video_id == x) := by
          rw [List.countP_append]
          simp [List.countP_cons, hx]
        rw [hcnt]

theorem insertLoop_covers (source : Source) (descs : List Dict)
    (vids : List Video) (vd : Dict) :
    vd ∈ descs →
    ((insertLoop source descs vids).1.any
      (fun v => v.video_id == Dict.getD vd "id" "")) = true := by
  induction descs generalizing vids with
  | nil =>
    intro hvd
    cases hvd
  | cons vd0 rest ih =>
    intro hvd
    simp only [insertLoop]
    by_cases hdup :
        (vids.any (fun v => v.video_id == Dict.getD vd0 "id" "")) = true
    · rw [if_pos hdup]
      rcases List.mem_cons.mp hvd with rfl | hvd'
      · exact insertLoop_any_mono _ _ _ _ hdup
      · exact ih _ hvd'
    · rw [if_neg hdup]
      dsimp only
      rcases List.mem_cons.mp hvd with rfl | hvd'
      · apply insertLoop_any_mono
        have hself : ((mkVideo source vd).video_id == Dict.getD vd "id" "") = true := by
          simp [mkVideo]
        simp [List.any_append, hself]
      · exact ih _ hvd'

theorem refreshStep_source (env : RefreshEnv) (s : Source) (vids : List Video) :
    (refreshStep env s vids).1 =
      if s.source_type == "video" then s
      else { s with last_checked := some env.now } := by
  unfold refreshStep
  by_cases ht : (s.source_type == "video") = true <;> simp [ht]

theorem refreshStep_videos_pre (env : RefreshEnv) (s : Source) (vids : List Video) :
    vids <+: (refreshStep env s vids).2.1 := by
  unfold refreshStep
  by_cases ht : (s.source_type == "video") = true
  · rw [if_pos ht]
  · rw [if_neg ht]
    dsimp only
    exact insertLoop_pre _ _ _

theorem refreshStep_mem (env : RefreshEnv) (s : Source) (vids : List Video)
    (v : Video) (hv : v ∈ (refreshStep env s vids).2.1) :
    v ∈ vids ∨
      ((s.source_type = "channel" ∨ s.source_type = "playlist") ∧
        ∃ vd ∈ env.resolve s.source_type s.source_id, v = mkVideo s vd ∧
          vids.any (fun w => w.video_id == v.video_id) = false) := by
  unfold refreshStep at hv
  by_cases ht : (s.source_type == "video") = true
  · rw [if_pos ht] at hv
    exact Or.inl hv
  · rw [if_neg ht] at hv
    dsimp only at hv
    by_cases hc : (s.source_type == "channel") = true
    · rw [if_pos hc] at hv
      have hceq : s.source_type = "channel" := by simpa using hc
      rcases insertLoop_mem _ _ _ _ hv with h | ⟨vd, hvd, hveq, hany⟩
      · exact Or.inl h
      · exact Or.inr ⟨Or.inl hceq, vd, by rw [hceq]; exact hvd, hveq, hany⟩
    · rw [if_neg hc] at hv
      by_cases hp : (s.source_type == "playlist") = true
      · rw [if_pos hp] at hv
        have hpeq : s.source_type = "playlist" := by simpa using hp
        rcases insertLoop_mem _ _ _ _ hv with h | ⟨vd, hvd, hveq, hany⟩
        · exact Or.inl h
        · exact Or.inr ⟨Or.inr hpeq, vd, by rw [hpeq]; exact hvd, hveq, hany⟩
      · rw [if_neg hp] at hv
        simp only [insertLoop] at hv
        exact Or.inl hv

theorem refreshStep_countP (env : RefreshEnv) (s : Source) (vids : List Video)
    (x : String) :
    ((refreshStep env s vids).2.1.countP (fun v => v.video_id == x)) ≤
      max 1 (vids.countP (fun v => v.video_id == x)) := by
  unfold refreshStep
  by_cases ht : (s.source_type == "video") = true
  · rw [if_pos ht]
    exact le_max_right 1 _
  · rw [if_neg ht]
    dsimp only
    exact insertLoop_countP _ _ _ _

theorem refreshStep_covers (env : RefreshEnv) (s : Source) (vids : List Video)
    (vd : Dict) (hty : s.source_type = "channel" ∨ s.source_type = "playlist")
    (hvd : vd ∈ env.resolve s.source_type s.source_id) :
    ((refreshStep env s vids).2.1.any
      (fun v => v.video_id == Dict.getD vd "id" "")) = true := by
  unfold refreshStep
  rcases hty with hty | hty
  · rw [if_neg (by simp [hty])]
    dsimp only
    rw [if_pos (by simp [hty])]
    apply insertLoop_covers
    rw [hty] at hvd
    exact hvd
  · rw [if_neg (by simp [hty])]
    dsimp only
    rw [if_neg (by simp [hty]), if_pos (by simp [hty])]
    apply insertLoop_covers
    rw [hty] at hvd
    exact hvd

theorem refreshLoop_sources (env : RefreshEnv) (ss : List Source)
    (vids : List Video) :
    (refreshLoop env ss vids).1 =
      ss.map (fun s =>
        if s.source_type == "video" then s
        else { s with last_checked := some env.now }) := by
  induction ss generalizing vids with
  | nil => simp [refreshLoop]
  | cons s rest ih =>
    simp only [refreshLoop, List.map_cons]
    rw [refreshStep_source, ih]

theorem refreshLoop_videos_pre (env : RefreshEnv) (ss : List Source)
    (vids : List Video) :
    vids <+: (refreshLoop env ss vids).2.1 := by
  induction ss generalizing vids with
  | nil =>
    simp only [refreshLoop]
    exact List.prefix_refl _
  | cons s rest ih =>
    simp only [refreshLoop]
    exact (refreshStep_videos_pre env s vids).trans (ih _)

theorem refreshLoop_mem (env : RefreshEnv) (ss : List Source) (vids : List Video)
    (v : Video) (hv : v ∈ (refreshLoop env ss vids).2.1) :
    v ∈ vids ∨ ∃ s ∈ ss,
      (s.source_type = "channel" ∨ s.source_type = "playlist") ∧
      ∃ vd ∈ env.resolve s.source_type s.source_id, v = mkVideo s vd ∧
        vids.any (fun w => w.video_id == v.video_id) = false := by
  induction ss generalizing vids with
  | nil =>
    simp only [refreshLoop] at hv
    exact Or.inl hv
  | cons s rest ih =>
    simp only [refreshLoop] at hv
    rcases ih _ hv with h | ⟨s', hs', hty, vd, hvd, hveq, hany⟩
    · rcases refreshStep_mem env s vids v h with h' | ⟨hty, vd, hvd, hveq, hany⟩
      · exact Or.inl h'
      · exact Or.inr ⟨s, List.mem_cons_self s rest, hty, vd, hvd, hveq, hany⟩
    · have hany' : vids.any (fun w => w.video_id == v.video_id) = false := by
        cases hvids : vids.any (fun w => w.video_id == v.video_id) with
        | false => rfl
        | true =>
          rw [any_true_of_pre _ (refreshStep_videos_pre env s vids) hvids] at hany
          exact Bool.noConfusion hany
      exact Or.inr ⟨s', List.mem_cons_of_mem _ hs', hty, vd, hvd, hveq, hany'⟩

theorem refreshLoop_countP (env : RefreshEnv) (ss : List Source)
    (vids : List Video) (x : String) :
    ((refreshLoop env ss vids).2.1.countP (fun v => v.video_id == x)) ≤
      max 1 (vids.countP (fun v => v.video_id == x)) := by
  induction ss generalizing vids with
  | nil =>
    simp only [refreshLoop]
    exact le_max_right 1 _
  | cons s rest ih =>
    simp only [refreshLoop]
    exact le_trans (ih _) (max_le (le_max_left 1 _) (refreshStep_countP env s vids x))

theorem refreshLoop_covers (env : RefreshEnv) (ss : List Source)
    (vids : List Video) (s : Source) (vd : Dict)
    (hty : s.source_type = "channel" ∨ s.source_type = "playlist")
    (hvd : vd ∈ env.resolve s.source_type s.source_id) :
    s ∈ ss →
    ((refreshLoop env ss vids).2.1.any
      (fun v => v.video_id == Dict.getD vd "id" "")) = true := by
  induction ss generalizing vids with
  | nil =>
    intro hs
    cases hs
  | cons s0 rest ih =>
    intro hs
    simp only [refreshLoop]
    rcases List.mem_cons.mp hs with rfl | hs'
    · exact any_true_of_pre _ (refreshLoop_videos_pre env rest _)
        (refreshStep_covers env s vids vd hty hvd)
    · exact ih _ hs'

/-- C7: in one `refresh_sources` pass, (a) the commit happens exactly
once per pass; (b) single-item (`source_type = "video"`) sources are
skipped — returned unchanged — while every collection/playlist source's
`last_checked` is set to the current time, also when its resolver
returned the empty list; (c) pre-existing video rows are kept unchanged
in place; (d) every inserted row comes from a resolved descriptor of a
channel/playlist source whose external id was not already present, and
carries `skip = !auto_download` and cleared status flags; (e) the pass
never creates a duplicate external id; (f) after the pass every resolved
descriptor's external id is present. -/
theorem refresh_sources_pass_spec (env : RefreshEnv) (st : DbState) :
    (refresh_sources env st).commits = 1 ∧
    (refresh_sources env st).state.sources =
      st.sources.map (fun s =>
        if s.source_type == "video" then s
        else { s with last_checked := some env.now }) ∧
    st.videos <+: (refresh_sources env st).state.videos ∧
    (∀ v ∈ (refresh_sources env st).state.videos, v ∉ st.videos →
      (st.videos.any (fun w => w.video_id == v.video_id)) = false ∧
      ∃ s ∈ st.sources,
        (s.source_type = "channel" ∨ s.source_type = "playlist") ∧
        v.skip = !s.auto_download ∧ v.downloaded = false ∧
        v.file_deleted = false ∧ v.failed_download = false ∧
        ∃ vd ∈ env.resolve s.source_type s.source_id, v = mkVideo s vd) ∧
    (∀ x, ((refresh_sources env st).state.videos.countP
        (fun v => v.video_id == x)) ≤
      max 1 (st.videos.countP (fun v => v.video_id == x))) ∧
    (∀ s ∈ st.sources,
      (s.source_type = "channel" ∨ s.source_type = "playlist") →
      ∀ vd ∈ env.resolve s.source_type s.source_id,
        (refresh_sources env st).state.videos.any
          (fun v => v.video_id == Dict.getD vd "id" "") = true) := by
  refine ⟨rfl, ?_, ?_, ?_, ?_, ?_⟩
  · exact refreshLoop_sources env st.sources st.videos
  · exact refreshLoop_videos_pre env st.sources st.videos
  · intro v hv hnotin
    rcases refreshLoop_mem env st.sources st.videos v hv with
      h | ⟨s, hs, hty, vd, hvd, hveq, hany⟩
    · exact absurd h hnotin
    · subst hveq
      exact ⟨hany, s, hs, hty, rfl, rfl, rfl, rfl, vd, hvd, rfl⟩
  · intro x
    exact refreshLoop_countP env st.sources st.videos x
  · intro s hs hty vd hvd
    exact refreshLoop_covers env st.sources st.videos s vd hty hvd hs

def c7Source : Source :=
  { id := 1, source_type := "channel", source_id := "chan1", name := some "Chan"
    last_checked := some 5, subfolder_id := none, auto_download := false }

def c7Env : RefreshEnv :=
  { resolve := fun t sid =>
      if t = "channel" ∧ sid = "chan1" then [[("id", "n1"), ("title", "New")]]
      else []
    now := 42 }

def c7State : DbState := { sources := [c7Source], videos := [] }

theorem refresh_sources_pass_spec_witness :
    (refresh_sources c7Env c7State).commits = 1 ∧
    (refresh_sources c7Env c7State).state.sources =
      [{ c7Source with last_checked := some 42 }] ∧
    (refresh_sources c7Env c7State).state.videos.any
      (fun v => v.video_id ==
        Dict.getD [("id", "n1"), ("title", "New")] "id" "") = true := by
  have h := refresh_sources_pass_spec c7Env c7State
  refine ⟨h.1, ?_, ?_⟩
  · rw [h.2.1]
    decide
  · exact h.2.2.2.2.2 c7Source (List.mem_singleton.mpr rfl) (Or.inl rfl)
      [("id", "n1"), ("title", "New")] (by decide)

/-! ## Source Poller loop (`background_checker`, main.py:72-90)

One iteration of the loop.  The loop head is `while True`: there is no
running flag at all.  The body reads `check_interval` (Python `int(...)`
raises on `None` or a non-numeric string), reads `auto_download`
(`None.lower()` raises on an absent setting), runs `refresh_sources`,
and then sleeps the whole interval in one `time.sleep(check_interval)`
call; any exception in the body is caught and followed by a single
`time.sleep(60)`.  The observable trace of an iteration is the list of
executed sleep-call durations and the number of times a cancellation
flag was consulted. -/

def digitsVal (cs : List Char) : Nat :=
  cs.foldl (fun n c => n * 10 + (c.toNat - '0'.toNat)) 0

/-- Python `int(s)`: optional surrounding whitespace, optional sign,
at least one digit; anything else raises `ValueError` (`none`). -/
def pyToInt? (s : String) : Option Int :=
  match stripChars s.data with
  | '-' :: ds =>
    if !ds.isEmpty && ds.all Char.isDigit then some (-(digitsVal ds : Int))
    else none
  | '+' :: ds =>
    if !ds.isEmpty && ds.all Char.isDigit then some (digitsVal ds) else none
  | ds =>
    if !ds.isEmpty && ds.all Char.isDigit then some (digitsVal ds) else none

structure CheckerEnv where
  checkIntervalSetting : Option String
  autoDownloadSetting : Option String
  refreshRaises : Bool
deriving Repr, DecidableEq

structure CheckerIteration where
  sleeps : List Int
  running_flag_checks : Nat
deriving Repr, DecidableEq

/-- One iteration of `background_checker` (main.py:72-90). -/
def background_checker_iteration (env : CheckerEnv) : CheckerIteration :=
  match env.checkIntervalSetting with
  | none => { sleeps := [60], running_flag_checks := 0 }
  | some s =>
    match pyToInt? s with
    | none => { sleeps := [60], running_flag_checks := 0 }
    | some check_interval =>
      match env.autoDownloadSetting with
      | none => { sleeps := [60], running_flag_checks := 0 }
      | some _ =>
        if env.refreshRaises then { sleeps := [60], running_flag_checks := 0 }
        else if check_interval < 0 then
          { sleeps := [60], running_flag_checks := 0 }
        else { sleeps := [check_interval], running_flag_checks := 0 }

theorem checker_cases (env : CheckerEnv) :
    background_checker_iteration env =
      { sleeps := [60], running_flag_checks := 0 } ∨
    ∃ n : Int, 0 ≤ n ∧ background_checker_iteration env =
      { sleeps := [n], running_flag_checks := 0 } := by
  unfold background_checker_iteration
  rcases hc : env.checkIntervalSetting with _ | s
  · exact Or.inl rfl
  · dsimp only
    rcases hp : pyToInt? s with _ | n
    · exact Or.inl rfl
    · dsimp only
      rcases ha : env.autoDownloadSetting with _ | a
      · exact Or.inl rfl
      · dsimp only
        by_cases hr : env.refreshRaises = true
        · rw [if_pos hr]
          exact Or.inl rfl
        · rw [if_neg hr]
          by_cases hn : n < 0
          · rw [if_pos hn]
            exact Or.inl rfl
          · rw [if_neg hn]
            exact Or.inr ⟨n, by omega, rfl⟩

/-- An environment for one healthy pass with a 2-second interval. -/
def c9Env : CheckerEnv :=
  { checkIntervalSetting := some "2", autoDownloadSetting := some "true"
    refreshRaises := false }

/-- C9, counterexample: with `check_interval = 2` and a healthy pass,
the iteration executes a single uninterruptible `time.sleep(2)` and
consults no running flag — not two one-second sleeps with cancellation
checks between them, as the claim states.  (`background_checker` is a
`while True` loop; it has no running flag, unlike
`process_download_queue` and `scan_library`.) -/
theorem poller_sleep_counterexample :
    background_checker_iteration c9Env =
      { sleeps := [2], running_flag_checks := 0 } ∧
    (background_checker_iteration c9Env).sleeps ≠ List.replicate 2 1 ∧
    (background_checker_iteration c9Env).running_flag_checks = 0 := by
  refine ⟨by decide, by decide, by decide⟩

/-- C9 (amended): the Source Poller loop (`background_checker`) runs as
`while True` with no running flag: an iteration never consults a
cancellation flag and always performs exactly one `time.sleep` call —
the full configured interval in a single uninterruptible sleep on a
successful pass, and the fixed 60-second back-off when the pass raised
an exception. -/
theorem poller_sleep_behavior (env : CheckerEnv) :
    (background_checker_iteration env).running_flag_checks = 0 ∧
    (background_checker_iteration env).sleeps.length = 1 ∧
    (∀ s n, env.checkIntervalSetting = some s → pyToInt? s = some n →
      0 ≤ n → env.autoDownloadSetting.isSome = true →
      env.refreshRaises = false →
      (background_checker_iteration env).sleeps = [n]) ∧
    (∀ s n, env.checkIntervalSetting = some s → pyToInt? s = some n →
      env.autoDownloadSetting.isSome = true → env.refreshRaises = true →
      (background_checker_iteration env).sleeps = [60]) := by
  refine ⟨?_, ?_, ?_, ?_⟩
  · rcases checker_cases env with h | ⟨n, hn, h⟩ <;> rw [h]
  · rcases checker_cases env with h | ⟨n, hn, h⟩ <;> rw [h] <;> rfl
  · intro s n hs hp hn ha hr
    unfold background_checker_iteration
    rw [hs]
    dsimp only
    rw [hp]
    dsimp only
    rcases hA : env.autoDownloadSetting with _ | a
    · rw [hA] at ha
      cases ha
    · dsimp only
      rw [if_neg (by simp [hr]), if_neg (by omega)]
  · intro s n hs hp ha hr
    unfold background_checker_iteration
    rw [hs]
    dsimp only
    rw [hp]
    dsimp only
    rcases hA : env.autoDownloadSetting with _ | a
    · rw [hA] at ha
    · dsimp only
      rw [if_pos hr]

/-- An environment in which the `refresh_sources` call raises. -/
def c9RaiseEnv : CheckerEnv :=
  { checkIntervalSetting := some "3600", autoDownloadSetting := some "true"
    refreshRaises := true }

theorem poller_sleep_behavior_witness :
    (background_checker_iteration c9Env).sleeps = [2] ∧
    (background_checker_iteration c9RaiseEnv).sleeps = [60] := by
  have h1 := poller_sleep_behavior c9Env
  have h2 := poller_sleep_behavior c9RaiseEnv
  exact ⟨h1.2.2.1 "2" 2 rfl (by decide) (by decide) rfl rfl,
    h2.2.2.2 "3600" 3600 rfl (by decide) rfl rfl⟩

end VibeTube
